import Mathlib

/-!
# NetFlow v9 / IPFIX flow sets: rendering, template cache, variable-length fields

A shallow embedding of `decoders/netflow/packet.go`.

* Go's `uint16`, `uint32` and `int` values are natural numbers; no arithmetic is
  performed on them by the embedded code, they are only printed.
* Go's `string` is `String`; `str += fmt.Sprintf(...)` is `str ++ ...`.
* `for k, x := range xs { ... }` is `forRange`, a loop threading the state
  through the body together with the running index.
* The dynamic `Value interface{}` of a `DataField` is a value of a type
  parameter `V`; what `%v` prints for it is the parameter `fmtV : V → String`.
* The field name `Type` of the source is written `Typ`.
-/

set_option autoImplicit false

namespace netflow

/-! ## Formatting primitives -/

/-- What `fmt.Sprintf` prints for `%v` or `%d` applied to an unsigned integer
or to a non-negative `int`, and what `strconv.Itoa` returns for a
non-negative `int`: the decimal representation. -/
def fmtUint (n : Nat) : String := Nat.repr n

/-- The loop `for k, x := range xs { s = body k x s }`, started at index `k`. -/
def forRange {α σ : Type} (body : Nat → α → σ → σ) : List α → Nat → σ → σ
  | [], _, s => s
  | x :: xs, k, s => forRange body xs (k + 1) (body k x s)

/-! ## Data model -/

/-- FlowSetHeader contains fields shared by all Flow Sets. -/
structure FlowSetHeader where
  Id : Nat
  Length : Nat
  deriving DecidableEq

/-- Field describes type and length of a single value in a Flow Data Record. -/
structure Field where
  Typ : Nat
  Length : Nat
  deriving DecidableEq

/-- Modelled from the spec: the declaration of `IPFIXTemplateField` is not in
`packet.go`; the spec describes the IPFIX field descriptor as a type code, a
length and an enterprise id (`uint32`), and `TemplateFlowSet.String` reads
exactly the fields `Type`, `Length` and `EnterpriseID`. -/
structure IPFIXTemplateField where
  Typ : Nat
  Length : Nat
  EnterpriseID : Nat
  deriving DecidableEq

/-- An element of `TemplateRecord.Fields`, which the source declares as
`[]interface{}`: a `Field`, an `IPFIXTemplateField`, or a value of any other
dynamic type. -/
inductive TemplateField where
  | plain (field : Field)
  | ipfix (field : IPFIXTemplateField)
  | other
  deriving DecidableEq

/-- TemplateRecord is a single template that describes structure of a Flow
Record. -/
structure TemplateRecord where
  TemplateId : Nat
  FieldCount : Nat
  Fields : List TemplateField
  deriving DecidableEq

/-- A decoded value: type code, dynamic value, length. -/
structure DataField (V : Type) where
  Typ : Nat
  Value : V
  Length : Nat

/-- A data record: its decoded values. -/
structure DataRecord (V : Type) where
  Values : List (DataField V)

/-- OptionsDataRecord is meta data sent alongside actual NetFlow data. -/
structure OptionsDataRecord (V : Type) where
  ScopesValues : List (DataField V)
  OptionsValues : List (DataField V)

/-- TemplateFlowSet is a collection of templates. -/
structure TemplateFlowSet extends FlowSetHeader where
  Records : List TemplateRecord

/-- DataFlowSet is a collection of Data Records. -/
structure DataFlowSet (V : Type) extends FlowSetHeader where
  Records : List (DataRecord V)

/-- A collection of Options Data Records. -/
structure OptionsDataFlowSet (V : Type) extends FlowSetHeader where
  Records : List (OptionsDataRecord V)

/-! ## Rendering -/

/-- The `String` method of `OptionsDataFlowSet`. -/
def OptionsDataFlowSet.String {V : Type} (fmtV : V → String) (flowSet : OptionsDataFlowSet V)
    (TypeToString : Nat → String) (ScopeToString : Nat → String) : String :=
  let str := "       Id " ++ fmtUint flowSet.Id ++ "\n"
  let str := str ++ ("       Length: " ++ fmtUint flowSet.Length ++ "\n")
  let str := str ++ ("       Records (" ++ fmtUint flowSet.Records.length ++ " records):\n")
  forRange (fun j record str =>
    let str := str ++ ("       - Record " ++ fmtUint j ++ ":\n")
    let str := str ++ ("            Scopes (" ++ fmtUint record.ScopesValues.length ++ "):\n")
    let str := forRange (fun k value str =>
      str ++ ("            - " ++ fmtUint k ++ ". " ++ ScopeToString value.Typ ++ " ("
        ++ fmtUint value.Typ ++ "): " ++ fmtV value.Value ++ "\n")) record.ScopesValues 0 str
    let str := str ++ ("            Options (" ++ fmtUint record.OptionsValues.length ++ "):\n")
    forRange (fun k value str =>
      str ++ ("            - " ++ fmtUint k ++ ". " ++ TypeToString value.Typ ++ " ("
        ++ fmtUint value.Typ ++ "): " ++ fmtV value.Value ++ "\n")) record.OptionsValues 0 str)
    flowSet.Records 0 str

/-- The `String` method of `DataFlowSet`. -/
def DataFlowSet.String {V : Type} (fmtV : V → String) (flowSet : DataFlowSet V)
    (TypeToString : Nat → String) : String :=
  let str := "       Id " ++ fmtUint flowSet.Id ++ "\n"
  let str := str ++ ("       Length: " ++ fmtUint flowSet.Length ++ "\n")
  let str := str ++ ("       Records (" ++ fmtUint flowSet.Records.length ++ " records):\n")
  forRange (fun j record str =>
    let str := str ++ ("       - Record " ++ fmtUint j ++ ":\n")
    let str := str ++ ("            Values (" ++ fmtUint record.Values.length ++ "):\n")
    forRange (fun k value str =>
      str ++ ("            - " ++ fmtUint k ++ ". " ++ TypeToString value.Typ ++ " ("
        ++ fmtUint value.Typ ++ "): " ++ fmtV value.Value ++ "\n")) record.Values 0 str)
    flowSet.Records 0 str

/-- The text `TemplateFlowSet.String` prints for the length of an
`IPFIXTemplateField`: `strconv.Itoa(int(field.Length))`, replaced by
`VARIABLE` when `field.Length == 0xFFFF`. -/
def IPFIXTemplateField.lengthStr (field : IPFIXTemplateField) : String :=
  let lengthStr := fmtUint field.Length
  if field.Length = 0xFFFF then "VARIABLE" else lengthStr

/-- The enterprise suffix `TemplateFlowSet.String` prints for an
`IPFIXTemplateField`: empty unless `field.EnterpriseID > 0`. -/
def IPFIXTemplateField.entid (field : IPFIXTemplateField) : String :=
  let entid := ""
  if field.EnterpriseID > 0 then " (enterprise: " ++ fmtUint field.EnterpriseID ++ ")" else entid

/-- The type switch in the field loop of `TemplateFlowSet.String`: the line
appended for the element `tf` at index `k`, or `none` when no case of the
switch matches and nothing is appended. -/
def templateFieldLine (TypeToString : Nat → String) (k : Nat) : TemplateField → Option String
  | TemplateField.plain field =>
    some ("            - " ++ fmtUint k ++ ". " ++ TypeToString field.Typ ++ " ("
      ++ fmtUint field.Typ ++ "): " ++ fmtUint field.Length ++ "\n")
  | TemplateField.ipfix field =>
    some ("            - " ++ fmtUint k ++ ". " ++ TypeToString field.Typ ++ " ("
      ++ fmtUint field.Typ ++ "): " ++ field.lengthStr ++ field.entid ++ "\n")
  | TemplateField.other => none

/-- The `String` method of `TemplateFlowSet`. -/
def TemplateFlowSet.String (flowSet : TemplateFlowSet) (TypeToString : Nat → String) : String :=
  let str := "       Id " ++ fmtUint flowSet.Id ++ "\n"
  let str := str ++ ("       Length: " ++ fmtUint flowSet.Length ++ "\n")
  let str := str ++ ("       Records (" ++ fmtUint flowSet.Records.length ++ " records):\n")
  forRange (fun j record str =>
    let str := str ++ ("       - " ++ fmtUint j ++ ". Record:\n")
    let str := str ++ ("            TemplateId: " ++ fmtUint record.TemplateId ++ "\n")
    let str := str ++ ("            FieldCount: " ++ fmtUint record.FieldCount ++ "\n")
    let str := str ++ ("            Fields (" ++ fmtUint record.Fields.length ++ "):\n")
    forRange (fun k tf str =>
      match templateFieldLine TypeToString k tf with
      | some line => str ++ line
      | none => str) record.Fields 0 str)
    flowSet.Records 0 str

/-! ## Template cache -/

/-- Modelled from the spec: the template cache is not part of `packet.go`.
The spec describes it as state mapping (exporter identity, Template ID) to the
most recently received template: here the list of cached entries, the most
recent first, with at most one entry per key once built by `put`. -/
def TemplateCache (K T : Type) : Type := List ((K × Nat) × T)

/-- Modelled from the spec: a cache with no template, the state of a freshly
started collector. -/
def TemplateCache.empty {K T : Type} : TemplateCache K T := []

/-- Modelled from the spec: `put(exporterKey, templateId, template)` inserts
or replaces. The entry cached under the same (exporter, ID) pair, if any, is
dropped and the new one is recorded. -/
def TemplateCache.put {K T : Type} [DecidableEq K] (cache : TemplateCache K T)
    (exporterKey : K) (templateId : Nat) (template : T) : TemplateCache K T :=
  ((exporterKey, templateId), template) ::
    List.filter (fun e => decide (e.1 ≠ (exporterKey, templateId))) cache

/-- Modelled from the spec: `get(exporterKey, templateId) -> Template |
NotFound`; `none` is NotFound, which is not an error at this layer. -/
def TemplateCache.get {K T : Type} [DecidableEq K] (cache : TemplateCache K T)
    (exporterKey : K) (templateId : Nat) : Option T :=
  (List.find? (fun e => decide (e.1 = (exporterKey, templateId))) cache).map (fun e => e.2)

/-! ## Data record decoder: one field -/

/-- Modelled from the spec: the decode error of a record whose declared or
variable-length field runs past the available bytes. -/
inductive DecodeError where
  | truncatedRecord
  deriving DecidableEq

/-- Modelled from the spec: the length prefix of a variable-length value, which
is not decoded in `packet.go`. One byte if the next byte is `< 255`, else that
byte is `255` and a following 2-byte big-endian value gives the true length.
Returns the length and the bytes after the prefix. -/
def readVariableLength : List (Fin 256) → Except DecodeError (Nat × List (Fin 256))
  | [] => Except.error DecodeError.truncatedRecord
  | b :: rest =>
    if b.val < 255 then Except.ok (b.val, rest)
    else
      match rest with
      | hi :: lo :: rest2 => Except.ok (hi.val * 256 + lo.val, rest2)
      | _ => Except.error DecodeError.truncatedRecord

/-- Modelled from the spec: decoding the value of one field of a data record,
which is not in `packet.go`. A fixed-length field consumes exactly its
declared length; a field declared with length `0xFFFF` consumes a length prefix
and then that many bytes. Returns the value bytes and the bytes that remain;
a field that runs past the available bytes is a decode error. -/
def decodeFieldValue (length : Nat) (bytes : List (Fin 256)) :
    Except DecodeError (List (Fin 256) × List (Fin 256)) :=
  if length = 0xFFFF then
    match readVariableLength bytes with
    | Except.error e => Except.error e
    | Except.ok (n, rest) =>
      if n ≤ rest.length then Except.ok (rest.take n, rest.drop n)
      else Except.error DecodeError.truncatedRecord
  else if length ≤ bytes.length then Except.ok (bytes.take length, bytes.drop length)
  else Except.error DecodeError.truncatedRecord

/-! ## Auxiliary definitions used to state the properties -/

/-- Reads a list of decimal digit characters back as a number. -/
def decodeDec (cs : List Char) : Nat :=
  cs.foldl (fun a c => 10 * a + (c.toNat - 48)) 0

/-- The number of newline characters of a string: its number of lines when
every line is terminated by a newline. -/
def lineCount (s : String) : Nat := s.data.count '\n'

/-- Whether an element of `TemplateRecord.Fields` is a `Field` or an
`IPFIXTemplateField`. -/
def TemplateField.isFieldKind : TemplateField → Bool
  | TemplateField.plain _ => true
  | TemplateField.ipfix _ => true
  | TemplateField.other => false

/-- The lines `DataFlowSet.String` is claimed to produce, in order: three
header lines, then for each record two header lines and one line per value. -/
def dataFlowSetLines {V : Type} (fmtV : V → String) (fs : DataFlowSet V)
    (f : Nat → String) : List String :=
  ["       Id " ++ fmtUint fs.Id ++ "\n",
   "       Length: " ++ fmtUint fs.Length ++ "\n",
   "       Records (" ++ fmtUint fs.Records.length ++ " records):\n"]
  ++ (fs.Records.enum.map fun jr =>
      ["       - Record " ++ fmtUint jr.1 ++ ":\n",
       "            Values (" ++ fmtUint jr.2.Values.length ++ "):\n"]
      ++ jr.2.Values.enum.map fun kv =>
          "            - " ++ fmtUint kv.1 ++ ". " ++ f kv.2.Typ ++ " ("
            ++ fmtUint kv.2.Typ ++ "): " ++ fmtV kv.2.Value ++ "\n").flatten

/-! ## Decimal rendering -/

theorem digitChar_toNat (d : Nat) (h : d < 10) : (Nat.digitChar d).toNat = 48 + d := by
  interval_cases d <;> rfl

theorem toDigitsCore_append (fuel n : Nat) (ds : List Char) :
    Nat.toDigitsCore 10 fuel n ds = Nat.toDigitsCore 10 fuel n [] ++ ds := by
  induction fuel generalizing n ds with
  | zero => simp [Nat.toDigitsCore]
  | succ fuel ih =>
    simp only [Nat.toDigitsCore]
    split
    · simp
    · rw [ih (n / 10) (Nat.digitChar (n % 10) :: ds), ih (n / 10) [Nat.digitChar (n % 10)]]
      simp

theorem decodeDec_snoc (cs : List Char) (c : Char) :
    decodeDec (cs ++ [c]) = 10 * decodeDec cs + (c.toNat - 48) := by
  simp [decodeDec, List.foldl_append]

theorem toDigitsCore_spec (fuel n : Nat) (h : n < fuel) :
    decodeDec (Nat.toDigitsCore 10 fuel n []) = n ∧
    (∀ c ∈ Nat.toDigitsCore 10 fuel n [], 48 ≤ c.toNat ∧ c.toNat < 58) ∧
    Nat.toDigitsCore 10 fuel n [] ≠ [] := by
  induction fuel generalizing n with
  | zero => omega
  | succ fuel ih =>
    have hd : n % 10 < 10 := Nat.mod_lt _ (by decide)
    have hc := digitChar_toNat (n % 10) hd
    simp only [Nat.toDigitsCore]
    split
    · rename_i h0
      refine ⟨?_, ?_, by simp⟩
      · simp [decodeDec, hc]; omega
      · intro c hcm
        simp at hcm
        subst hcm
        omega
    · rename_i h0
      have hlt : n / 10 < fuel := by omega
      obtain ⟨h1, h2, h3⟩ := ih (n / 10) hlt
      rw [toDigitsCore_append]
      refine ⟨?_, ?_, by simp [h3]⟩
      · rw [decodeDec_snoc, h1, hc]; omega
      · intro c hcm
        rcases List.mem_append.mp hcm with hm | hm
        · exact h2 c hm
        · simp at hm
          subst hm
          omega

theorem fmtUint_data (n : Nat) : (fmtUint n).data = Nat.toDigits 10 n := rfl

theorem decodeDec_fmtUint (n : Nat) : decodeDec (fmtUint n).data = n :=
  (toDigitsCore_spec (n + 1) n (Nat.lt_succ_self n)).1

theorem fmtUint_digits (n : Nat) : ∀ c ∈ (fmtUint n).data, 48 ≤ c.toNat ∧ c.toNat < 58 :=
  (toDigitsCore_spec (n + 1) n (Nat.lt_succ_self n)).2.1

theorem fmtUint_injective {n m : Nat} (h : fmtUint n = fmtUint m) : n = m := by
  have := congrArg (fun s => decodeDec s.data) h
  simpa [decodeDec_fmtUint] using this

theorem fmtUint_no_newline (n : Nat) : '\n' ∉ (fmtUint n).data := by
  intro h
  have := fmtUint_digits n _ h
  revert this
  decide

theorem fmtUint_no_space (n : Nat) : ' ' ∉ (fmtUint n).data := by
  intro h
  have := fmtUint_digits n _ h
  revert this
  decide

theorem fmtUint_ne_variable (n : Nat) : fmtUint n ≠ "VARIABLE" := by
  intro h
  have hm : 'V' ∈ (fmtUint n).data := by rw [h]; decide
  have := fmtUint_digits n _ hm
  revert this
  decide

/-! ## Loops that only append -/

theorem join_nil : String.join [] = "" := rfl

theorem join_cons (x : String) (xs : List String) :
    String.join (x :: xs) = x ++ String.join xs := by
  apply String.ext
  simp [String.data_join]

theorem join_append (xs ys : List String) :
    String.join (xs ++ ys) = String.join xs ++ String.join ys := by
  apply String.ext
  simp [String.data_join]

theorem forRange_append {α : Type} (g : Nat → α → String) (xs : List α) (k : Nat) (s : String) :
    forRange (fun k x s => s ++ g k x) xs k s
      = s ++ String.join ((xs.enumFrom k).map (fun p => g p.1 p.2)) := by
  induction xs generalizing k s with
  | nil => simp [forRange, String.join]
  | cons x xs ih =>
    simp only [forRange, List.enumFrom_cons, List.map_cons, join_cons]
    rw [ih, String.append_assoc]

theorem forRange_append_option {α : Type} (g : Nat → α → Option String) (xs : List α) (k : Nat)
    (s : String) :
    forRange (fun k x s => match g k x with
        | some line => s ++ line
        | none => s) xs k s
      = s ++ String.join ((xs.enumFrom k).filterMap (fun p => g p.1 p.2)) := by
  induction xs generalizing k s with
  | nil => simp [forRange, String.join]
  | cons x xs ih =>
    simp only [forRange, List.enumFrom_cons, List.filterMap_cons]
    rw [ih]
    cases g k x with
    | none => rfl
    | some line => simp only [join_cons, String.append_assoc]

/-- Closed form of `DataFlowSet.String`. -/
theorem dataFlowSet_String_eq {V : Type} (fmtV : V → String) (fs : DataFlowSet V)
    (f : Nat → String) :
    fs.String fmtV f =
      "       Id " ++ fmtUint fs.Id ++ "\n"
      ++ ("       Length: " ++ fmtUint fs.Length ++ "\n")
      ++ ("       Records (" ++ fmtUint fs.Records.length ++ " records):\n")
      ++ String.join (fs.Records.enum.map fun jr =>
          "       - Record " ++ fmtUint jr.1 ++ ":\n"
          ++ ("            Values (" ++ fmtUint jr.2.Values.length ++ "):\n"
          ++ String.join (jr.2.Values.enum.map fun kv =>
              "            - " ++ fmtUint kv.1 ++ ". " ++ f kv.2.Typ ++ " ("
                ++ fmtUint kv.2.Typ ++ "): " ++ fmtV kv.2.Value ++ "\n"))) := by
  simp only [DataFlowSet.String, forRange_append, String.append_assoc, List.enum]

/-- Closed form of `OptionsDataFlowSet.String`. -/
theorem optionsDataFlowSet_String_eq {V : Type} (fmtV : V → String) (fs : OptionsDataFlowSet V)
    (f g : Nat → String) :
    fs.String fmtV f g =
      "       Id " ++ fmtUint fs.Id ++ "\n"
      ++ ("       Length: " ++ fmtUint fs.Length ++ "\n")
      ++ ("       Records (" ++ fmtUint fs.Records.length ++ " records):\n")
      ++ String.join (fs.Records.enum.map fun jr =>
          "       - Record " ++ fmtUint jr.1 ++ ":\n"
          ++ ("            Scopes (" ++ fmtUint jr.2.ScopesValues.length ++ "):\n"
          ++ (String.join (jr.2.ScopesValues.enum.map fun kv =>
              "            - " ++ fmtUint kv.1 ++ ". " ++ g kv.2.Typ ++ " ("
                ++ fmtUint kv.2.Typ ++ "): " ++ fmtV kv.2.Value ++ "\n")
          ++ ("            Options (" ++ fmtUint jr.2.OptionsValues.length ++ "):\n"
          ++ String.join (jr.2.OptionsValues.enum.map fun kv =>
              "            - " ++ fmtUint kv.1 ++ ". " ++ f kv.2.Typ ++ " ("
                ++ fmtUint kv.2.Typ ++ "): " ++ fmtV kv.2.Value ++ "\n"))))) := by
  simp only [OptionsDataFlowSet.String, forRange_append, String.append_assoc, List.enum]

/-- Closed form of `TemplateFlowSet.String`. -/
theorem templateFlowSet_String_eq (fs : TemplateFlowSet) (f : Nat → String) :
    fs.String f =
      "       Id " ++ fmtUint fs.Id ++ "\n"
      ++ ("       Length: " ++ fmtUint fs.Length ++ "\n")
      ++ ("       Records (" ++ fmtUint fs.Records.length ++ " records):\n")
      ++ String.join (fs.Records.enum.map fun jr =>
          "       - " ++ fmtUint jr.1 ++ ". Record:\n"
          ++ ("            TemplateId: " ++ fmtUint jr.2.TemplateId ++ "\n"
          ++ ("            FieldCount: " ++ fmtUint jr.2.FieldCount ++ "\n"
          ++ ("            Fields (" ++ fmtUint jr.2.Fields.length ++ "):\n"
          ++ String.join (jr.2.Fields.enum.filterMap fun kf =>
              templateFieldLine f kf.1 kf.2))))) := by
  simp only [TemplateFlowSet.String, forRange_append_option, forRange_append,
    String.append_assoc, List.enum]

theorem forRange_congr {α σ : Type} (body body2 : Nat → α → σ → σ) (xs : List α)
    (h : ∀ x ∈ xs, ∀ k s, body k x s = body2 k x s) (k : Nat) (s : σ) :
    forRange body xs k s = forRange body2 xs k s := by
  induction xs generalizing k s with
  | nil => rfl
  | cons x xs ih =>
    simp only [forRange]
    rw [h x (List.mem_cons_self x xs) k s]
    exact ih (fun y hy => h y (List.mem_cons_of_mem x hy)) (k + 1) _

theorem templateFieldLine_eq (f : Nat → String) :
    (fun kf : Nat × TemplateField => templateFieldLine f kf.1 kf.2) =
      fun kf => match kf.2 with
        | TemplateField.plain fd =>
          some ("            - " ++ fmtUint kf.1 ++ ". " ++ f fd.Typ ++ " ("
            ++ fmtUint fd.Typ ++ "): " ++ fmtUint fd.Length ++ "\n")
        | TemplateField.ipfix fd =>
          some ("            - " ++ fmtUint kf.1 ++ ". " ++ f fd.Typ ++ " ("
            ++ fmtUint fd.Typ ++ "): " ++ fd.lengthStr ++ fd.entid ++ "\n")
        | TemplateField.other => none := by
  funext kf
  obtain ⟨k, tf⟩ := kf
  cases tf <;> rfl

/-! ## The rendering claims -/

/-- C1: for every flow set and every lookup function, each of the three
`String` methods returns the header lines followed, record by record, by the
record's header lines and its value or field lines, and the line of the k-th
value or field of type `t` is `"            - k. <lookup t> (<t in decimal>): "`
followed by the rendered value or length and a newline: the numeric code is
printed whatever the lookup returned. -/
theorem string_lines_carry_type_code {V : Type} (fmtV : V → String) :
    (∀ (fs : DataFlowSet V) (f : Nat → String),
      fs.String fmtV f =
        "       Id " ++ fmtUint fs.Id ++ "\n"
        ++ ("       Length: " ++ fmtUint fs.Length ++ "\n")
        ++ ("       Records (" ++ fmtUint fs.Records.length ++ " records):\n")
        ++ String.join (fs.Records.enum.map fun jr =>
            "       - Record " ++ fmtUint jr.1 ++ ":\n"
            ++ ("            Values (" ++ fmtUint jr.2.Values.length ++ "):\n"
            ++ String.join (jr.2.Values.enum.map fun kv =>
                "            - " ++ fmtUint kv.1 ++ ". " ++ f kv.2.Typ ++ " ("
                  ++ fmtUint kv.2.Typ ++ "): " ++ fmtV kv.2.Value ++ "\n")))) ∧
    (∀ (fs : OptionsDataFlowSet V) (f g : Nat → String),
      fs.String fmtV f g =
        "       Id " ++ fmtUint fs.Id ++ "\n"
        ++ ("       Length: " ++ fmtUint fs.Length ++ "\n")
        ++ ("       Records (" ++ fmtUint fs.Records.length ++ " records):\n")
        ++ String.join (fs.Records.enum.map fun jr =>
            "       - Record " ++ fmtUint jr.1 ++ ":\n"
            ++ ("            Scopes (" ++ fmtUint jr.2.ScopesValues.length ++ "):\n"
            ++ (String.join (jr.2.ScopesValues.enum.map fun kv =>
                "            - " ++ fmtUint kv.1 ++ ". " ++ g kv.2.Typ ++ " ("
                  ++ fmtUint kv.2.Typ ++ "): " ++ fmtV kv.2.Value ++ "\n")
            ++ ("            Options (" ++ fmtUint jr.2.OptionsValues.length ++ "):\n"
            ++ String.join (jr.2.OptionsValues.enum.map fun kv =>
                "            - " ++ fmtUint kv.1 ++ ". " ++ f kv.2.Typ ++ " ("
                  ++ fmtUint kv.2.Typ ++ "): " ++ fmtV kv.2.Value ++ "\n")))))) ∧
    (∀ (fs : TemplateFlowSet) (f : Nat → String),
      fs.String f =
        "       Id " ++ fmtUint fs.Id ++ "\n"
        ++ ("       Length: " ++ fmtUint fs.Length ++ "\n")
        ++ ("       Records (" ++ fmtUint fs.Records.length ++ " records):\n")
        ++ String.join (fs.Records.enum.map fun jr =>
            "       - " ++ fmtUint jr.1 ++ ". Record:\n"
            ++ ("            TemplateId: " ++ fmtUint jr.2.TemplateId ++ "\n"
            ++ ("            FieldCount: " ++ fmtUint jr.2.FieldCount ++ "\n"
            ++ ("            Fields (" ++ fmtUint jr.2.Fields.length ++ "):\n"
            ++ String.join (jr.2.Fields.enum.filterMap fun kf =>
                match kf.2 with
                | TemplateField.plain fd =>
                  some ("            - " ++ fmtUint kf.1 ++ ". " ++ f fd.Typ ++ " ("
                    ++ fmtUint fd.Typ ++ "): " ++ fmtUint fd.Length ++ "\n")
                | TemplateField.ipfix fd =>
                  some ("            - " ++ fmtUint kf.1 ++ ". " ++ f fd.Typ ++ " ("
                    ++ fmtUint fd.Typ ++ "): " ++ fd.lengthStr ++ fd.entid ++ "\n")
                | TemplateField.other => none)))))) := by
  refine ⟨fun fs f => dataFlowSet_String_eq fmtV fs f,
    fun fs f g => optionsDataFlowSet_String_eq fmtV fs f g, fun fs f => ?_⟩
  rw [templateFlowSet_String_eq, templateFieldLine_eq]

theorem dataFlowSet_String_congr {V : Type} (fmtV : V → String) (fs : DataFlowSet V)
    (f g : Nat → String) (h : ∀ r ∈ fs.Records, ∀ v ∈ r.Values, f v.Typ = g v.Typ) :
    fs.String fmtV f = fs.String fmtV g := by
  unfold DataFlowSet.String
  apply forRange_congr
  intro r hr j s
  apply forRange_congr
  intro v hv k s2
  rw [h r hr v hv]

theorem templateFlowSet_String_congr (fs : TemplateFlowSet) (f g : Nat → String)
    (h : ∀ r ∈ fs.Records, ∀ tf ∈ r.Fields,
      (∀ fd, tf = TemplateField.plain fd → f fd.Typ = g fd.Typ) ∧
      (∀ fd, tf = TemplateField.ipfix fd → f fd.Typ = g fd.Typ)) :
    fs.String f = fs.String g := by
  unfold TemplateFlowSet.String
  apply forRange_congr
  intro r hr j s
  apply forRange_congr
  intro tf htf k s2
  cases tf with
  | plain fd => simp only [templateFieldLine, (h r hr _ htf).1 fd rfl]
  | ipfix fd => simp only [templateFieldLine, (h r hr _ htf).2 fd rfl]
  | other => rfl

theorem optionsDataFlowSet_String_congr {V : Type} (fmtV : V → String)
    (fs : OptionsDataFlowSet V) (f g sf sg : Nat → String)
    (h : ∀ r ∈ fs.Records, ∀ v ∈ r.OptionsValues, f v.Typ = g v.Typ)
    (hs : ∀ r ∈ fs.Records, ∀ v ∈ r.ScopesValues, sf v.Typ = sg v.Typ) :
    fs.String fmtV f sf = fs.String fmtV g sg := by
  unfold OptionsDataFlowSet.String
  apply forRange_congr
  intro r hr j s
  have hsc : ∀ s0 : String,
      forRange (fun k (value : DataField V) str =>
        str ++ ("            - " ++ fmtUint k ++ ". " ++ sf value.Typ ++ " ("
          ++ fmtUint value.Typ ++ "): " ++ fmtV value.Value ++ "\n")) r.ScopesValues 0 s0
      = forRange (fun k (value : DataField V) str =>
        str ++ ("            - " ++ fmtUint k ++ ". " ++ sg value.Typ ++ " ("
          ++ fmtUint value.Typ ++ "): " ++ fmtV value.Value ++ "\n")) r.ScopesValues 0 s0 := by
    intro s0
    apply forRange_congr
    intro v hv k s2
    rw [hs r hr v hv]
  simp only [hsc]
  apply forRange_congr
  intro v hv k s2
  rw [h r hr v hv]

/-- C2: the rendering depends on the lookup functions only through the names
they give to the type codes that occur in the flow set: two type lookups that
agree on the type of every value of a `DataFlowSet` give the same output;
likewise for the fields of a `TemplateFlowSet`; and for an
`OptionsDataFlowSet` when the two type lookups agree on the types of the
option values and the two scope lookups agree on the types of the scope
values. -/
theorem string_depends_only_on_occurring_codes {V : Type} (fmtV : V → String) :
    (∀ (fs : DataFlowSet V) (f g : Nat → String),
      (∀ r ∈ fs.Records, ∀ v ∈ r.Values, f v.Typ = g v.Typ) →
      fs.String fmtV f = fs.String fmtV g) ∧
    (∀ (fs : TemplateFlowSet) (f g : Nat → String),
      (∀ r ∈ fs.Records, ∀ tf ∈ r.Fields,
        (∀ fd, tf = TemplateField.plain fd → f fd.Typ = g fd.Typ) ∧
        (∀ fd, tf = TemplateField.ipfix fd → f fd.Typ = g fd.Typ)) →
      fs.String f = fs.String g) ∧
    (∀ (fs : OptionsDataFlowSet V) (f g sf sg : Nat → String),
      (∀ r ∈ fs.Records, ∀ v ∈ r.OptionsValues, f v.Typ = g v.Typ) →
      (∀ r ∈ fs.Records, ∀ v ∈ r.ScopesValues, sf v.Typ = sg v.Typ) →
      fs.String fmtV f sf = fs.String fmtV g sg) := by
  exact ⟨dataFlowSet_String_congr fmtV, templateFlowSet_String_congr,
    optionsDataFlowSet_String_congr fmtV⟩

/-- Witness for C2 on a data flow set, a template flow set and an options data
flow set whose only type code is 8, with lookups that differ away from 8. -/
theorem string_depends_only_on_occurring_codes_witness :
    (DataFlowSet.String Nat.repr ⟨⟨256, 12⟩, [⟨[⟨8, 1, 4⟩, ⟨8, 2, 4⟩]⟩]⟩
        (fun t => if t = 8 then "IN_BYTES" else "a")
      = DataFlowSet.String Nat.repr ⟨⟨256, 12⟩, [⟨[⟨8, 1, 4⟩, ⟨8, 2, 4⟩]⟩]⟩
        (fun t => if t = 8 then "IN_BYTES" else "b")) ∧
    (TemplateFlowSet.String ⟨⟨0, 16⟩, [⟨256, 2, [.plain ⟨8, 4⟩, .ipfix ⟨8, 4, 9⟩, .other]⟩]⟩
        (fun t => if t = 8 then "IN_BYTES" else "a")
      = TemplateFlowSet.String ⟨⟨0, 16⟩, [⟨256, 2, [.plain ⟨8, 4⟩, .ipfix ⟨8, 4, 9⟩, .other]⟩]⟩
        (fun t => if t = 8 then "IN_BYTES" else "b")) ∧
    (OptionsDataFlowSet.String Nat.repr ⟨⟨257, 12⟩, [⟨[⟨1, 5, 4⟩], [⟨8, 2, 4⟩]⟩]⟩
        (fun t => if t = 8 then "IN_BYTES" else "a") (fun t => if t = 1 then "System" else "c")
      = OptionsDataFlowSet.String Nat.repr ⟨⟨257, 12⟩, [⟨[⟨1, 5, 4⟩], [⟨8, 2, 4⟩]⟩]⟩
        (fun t => if t = 8 then "IN_BYTES" else "b") (fun t => if t = 1 then "System" else "d")) :=
  ⟨(string_depends_only_on_occurring_codes Nat.repr).1 _ _ _ (by simp),
   (string_depends_only_on_occurring_codes Nat.repr).2.1 _ _ _ (by simp),
   (string_depends_only_on_occurring_codes Nat.repr).2.2 _ _ _ _ _ (by simp) (by simp)⟩

/-- C3: `OptionsDataFlowSet.String` renders, for every record, a
`Scopes (s)` section with `s = len(ScopesValues)` whose lines are named by
`ScopeToString`, then an `Options (o)` section with `o = len(OptionsValues)`
whose lines are named by `TypeToString`, each in list order with indices from
0. Hence the output is the same for two type lookups that agree on the types
of the option values (whatever they return for codes that occur only in scope
values), and for two scope lookups that agree on the types of the scope
values. -/
theorem options_scopes_and_options_rendered_separately {V : Type} (fmtV : V → String)
    (fs : OptionsDataFlowSet V) (TypeToString ScopeToString : Nat → String) :
    fs.String fmtV TypeToString ScopeToString =
      "       Id " ++ fmtUint fs.Id ++ "\n"
      ++ ("       Length: " ++ fmtUint fs.Length ++ "\n")
      ++ ("       Records (" ++ fmtUint fs.Records.length ++ " records):\n")
      ++ String.join (fs.Records.enum.map fun jr =>
          "       - Record " ++ fmtUint jr.1 ++ ":\n"
          ++ ("            Scopes (" ++ fmtUint jr.2.ScopesValues.length ++ "):\n"
          ++ (String.join (jr.2.ScopesValues.enum.map fun kv =>
              "            - " ++ fmtUint kv.1 ++ ". " ++ ScopeToString kv.2.Typ ++ " ("
                ++ fmtUint kv.2.Typ ++ "): " ++ fmtV kv.2.Value ++ "\n")
          ++ ("            Options (" ++ fmtUint jr.2.OptionsValues.length ++ "):\n"
          ++ String.join (jr.2.OptionsValues.enum.map fun kv =>
              "            - " ++ fmtUint kv.1 ++ ". " ++ TypeToString kv.2.Typ ++ " ("
                ++ fmtUint kv.2.Typ ++ "): " ++ fmtV kv.2.Value ++ "\n")))))
    ∧ (∀ TypeToString2 : Nat → String,
        (∀ r ∈ fs.Records, ∀ v ∈ r.OptionsValues, TypeToString v.Typ = TypeToString2 v.Typ) →
        fs.String fmtV TypeToString ScopeToString = fs.String fmtV TypeToString2 ScopeToString)
    ∧ (∀ ScopeToString2 : Nat → String,
        (∀ r ∈ fs.Records, ∀ v ∈ r.ScopesValues, ScopeToString v.Typ = ScopeToString2 v.Typ) →
        fs.String fmtV TypeToString ScopeToString = fs.String fmtV TypeToString ScopeToString2) :=
  ⟨optionsDataFlowSet_String_eq fmtV fs TypeToString ScopeToString,
   fun t2 h => optionsDataFlowSet_String_congr fmtV fs _ t2 _ _ h (fun _ _ _ _ => rfl),
   fun s2 h => optionsDataFlowSet_String_congr fmtV fs _ _ _ s2 (fun _ _ _ _ => rfl) h⟩

/-- Witness for C3: code 1 occurs only in a scope value and code 8 only in an
option value; the type lookup may change at 1 and the scope lookup at 8. -/
theorem options_scopes_and_options_rendered_separately_witness :
    (OptionsDataFlowSet.String Nat.repr ⟨⟨257, 12⟩, [⟨[⟨1, 5, 4⟩], [⟨8, 2, 4⟩]⟩]⟩
        (fun t => if t = 8 then "IN_BYTES" else "a") (fun t => if t = 1 then "System" else "c")
      = OptionsDataFlowSet.String Nat.repr ⟨⟨257, 12⟩, [⟨[⟨1, 5, 4⟩], [⟨8, 2, 4⟩]⟩]⟩
        (fun t => if t = 8 then "IN_BYTES" else "b") (fun t => if t = 1 then "System" else "c")) ∧
    (OptionsDataFlowSet.String Nat.repr ⟨⟨257, 12⟩, [⟨[⟨1, 5, 4⟩], [⟨8, 2, 4⟩]⟩]⟩
        (fun t => if t = 8 then "IN_BYTES" else "a") (fun t => if t = 1 then "System" else "c")
      = OptionsDataFlowSet.String Nat.repr ⟨⟨257, 12⟩, [⟨[⟨1, 5, 4⟩], [⟨8, 2, 4⟩]⟩]⟩
        (fun t => if t = 8 then "IN_BYTES" else "a") (fun t => if t = 1 then "System" else "d")) :=
  ⟨(options_scopes_and_options_rendered_separately Nat.repr _ _ _).2.1 _ (by simp),
   (options_scopes_and_options_rendered_separately Nat.repr _ _ _).2.2 _ (by simp)⟩

/-! ## Counting lines -/

theorem lineCount_append (a b : String) : lineCount (a ++ b) = lineCount a + lineCount b := by
  simp [lineCount, String.data_append, List.count_append]

theorem lineCount_fmtUint (n : Nat) : lineCount (fmtUint n) = 0 :=
  List.count_eq_zero_of_not_mem (fmtUint_no_newline n)

theorem lineCount_join (xs : List String) :
    lineCount (String.join xs) = (xs.map lineCount).sum := by
  induction xs with
  | nil => rfl
  | cons x xs ih => rw [join_cons, lineCount_append, ih, List.map_cons, List.sum_cons]

theorem join_flatten (L : List (List String)) :
    String.join L.flatten = String.join (L.map String.join) := by
  induction L with
  | nil => rfl
  | cons l L ih => rw [List.flatten_cons, join_append, ih, List.map_cons, join_cons]

theorem snd_mem_of_mem_enumFrom {α : Type} (xs : List α) (k : Nat) (p : Nat × α)
    (h : p ∈ xs.enumFrom k) : p.2 ∈ xs := by
  induction xs generalizing k with
  | nil => simp at h
  | cons x xs ih =>
    rw [List.enumFrom_cons, List.mem_cons] at h
    rcases h with h | h
    · subst h
      exact List.mem_cons_self _ _
    · exact List.mem_cons_of_mem _ (ih (k + 1) h)

theorem sum_map_enumFrom_snd {α : Type} (h : α → Nat) (xs : List α) (k : Nat) :
    ((xs.enumFrom k).map fun p => h p.2).sum = (xs.map h).sum := by
  induction xs generalizing k with
  | nil => rfl
  | cons x xs ih => simp [List.enumFrom_cons, ih]

theorem sum_map_eq_length_of_all_one (xs : List String) (h : ∀ l ∈ xs, lineCount l = 1) :
    (xs.map lineCount).sum = xs.length := by
  induction xs with
  | nil => rfl
  | cons x xs ih =>
    rw [List.map_cons, List.sum_cons, h x (List.mem_cons_self _ _),
      ih (fun l hl => h l (List.mem_cons_of_mem _ hl)), List.length_cons]
    omega

theorem dataFlowSet_String_eq_join_lines {V : Type} (fmtV : V → String) (fs : DataFlowSet V)
    (f : Nat → String) : fs.String fmtV f = String.join (dataFlowSetLines fmtV fs f) := by
  rw [dataFlowSet_String_eq, dataFlowSetLines, join_append, join_flatten]
  simp only [join_cons, join_nil, List.map_map, String.append_empty,
    String.append_assoc, Function.comp_def, List.cons_append, List.nil_append]

theorem dataFlowSetLines_length {V : Type} (fmtV : V → String) (fs : DataFlowSet V)
    (f : Nat → String) :
    (dataFlowSetLines fmtV fs f).length
      = 3 + (fs.Records.map fun r => 2 + r.Values.length).sum := by
  simp only [dataFlowSetLines, List.length_append, List.length_flatten, List.map_map,
    Function.comp_def, List.length_cons, List.length_nil, List.length_map, List.enum,
    List.enumFrom_length]
  have e := sum_map_enumFrom_snd (fun r : DataRecord V => 0 + 1 + 1 + r.Values.length)
    fs.Records 0
  beta_reduce at e
  rw [e]

theorem dataFlowSetLines_lineCount {V : Type} (fmtV : V → String) (fs : DataFlowSet V)
    (f : Nat → String)
    (h : ∀ r ∈ fs.Records, ∀ v ∈ r.Values,
      '\n' ∉ (f v.Typ).data ∧ '\n' ∉ (fmtV v.Value).data) :
    ∀ l ∈ dataFlowSetLines fmtV fs f, lineCount l = 1 := by
  intro l hl
  simp only [dataFlowSetLines, List.mem_append, List.mem_cons, List.mem_flatten,
    List.mem_map, List.not_mem_nil, or_false] at hl
  rcases hl with (rfl | rfl | rfl) | ⟨b, ⟨jr, hjr, rfl⟩, hlb⟩
  · simp [lineCount_append, lineCount_fmtUint]; rfl
  · simp [lineCount_append, lineCount_fmtUint]; rfl
  · simp [lineCount_append, lineCount_fmtUint]; rfl
  · have hr := snd_mem_of_mem_enumFrom _ _ _ hjr
    simp only [List.mem_append, List.mem_cons, List.mem_map, List.not_mem_nil, or_false] at hlb
    rcases hlb with (rfl | rfl) | ⟨kv, hkv, rfl⟩
    · simp [lineCount_append, lineCount_fmtUint]; rfl
    · simp [lineCount_append, lineCount_fmtUint]; rfl
    · have hv := snd_mem_of_mem_enumFrom _ _ _ hkv
      obtain ⟨h1, h2⟩ := h _ hr _ hv
      have e1 : lineCount (f kv.2.Typ) = 0 := List.count_eq_zero_of_not_mem h1
      have e2 : lineCount (fmtV kv.2.Value) = 0 := List.count_eq_zero_of_not_mem h2
      simp [lineCount_append, lineCount_fmtUint, e1, e2]; rfl

/-- C7: `DataFlowSet.String` keeps the order and arity of the decoded
structure. The output is the concatenation of the three header lines followed,
for each record in list order, by the two record lines (with the record index
and the number of values) and one line per value in list order, indexed from
0; that is `3 + Σ (2 + m_j)` pieces. When no name of an occurring type code and
no rendered value contains a newline, each piece is a single line and the
output has exactly `3 + Σ (2 + m_j)` newlines. An empty flow set renders
exactly the three header lines. -/
theorem dataFlowSet_String_order_and_arity {V : Type} (fmtV : V → String)
    (fs : DataFlowSet V) (f : Nat → String) :
    fs.String fmtV f = String.join (dataFlowSetLines fmtV fs f)
    ∧ (dataFlowSetLines fmtV fs f).length
        = 3 + (fs.Records.map fun r => 2 + r.Values.length).sum
    ∧ ((∀ r ∈ fs.Records, ∀ v ∈ r.Values,
          '\n' ∉ (f v.Typ).data ∧ '\n' ∉ (fmtV v.Value).data) →
        (∀ l ∈ dataFlowSetLines fmtV fs f, lineCount l = 1) ∧
        lineCount (fs.String fmtV f)
          = 3 + (fs.Records.map fun r => 2 + r.Values.length).sum)
    ∧ (fs.Records = [] →
        fs.String fmtV f =
          "       Id " ++ fmtUint fs.Id ++ "\n"
          ++ ("       Length: " ++ fmtUint fs.Length ++ "\n")
          ++ "       Records (0 records):\n"
        ∧ lineCount (fs.String fmtV f) = 3) := by
  refine ⟨dataFlowSet_String_eq_join_lines fmtV fs f, dataFlowSetLines_length fmtV fs f, ?_, ?_⟩
  · intro h
    have h1 := dataFlowSetLines_lineCount fmtV fs f h
    refine ⟨h1, ?_⟩
    rw [dataFlowSet_String_eq_join_lines, lineCount_join, sum_map_eq_length_of_all_one _ h1,
      dataFlowSetLines_length]
  · intro h0
    have h1 := dataFlowSetLines_lineCount fmtV fs f (by simp [h0])
    refine ⟨?_, ?_⟩
    · rw [dataFlowSet_String_eq, h0]
      simp only [List.enum, List.enumFrom_nil, List.map_nil, join_nil, String.append_empty,
        List.length_nil]
      rfl
    · rw [dataFlowSet_String_eq_join_lines, lineCount_join, sum_map_eq_length_of_all_one _ h1,
        dataFlowSetLines_length, h0]
      rfl

/-- Witness for C7: a flow set of two records with two values and no value. -/
theorem dataFlowSet_String_order_and_arity_witness :
    lineCount (DataFlowSet.String Nat.repr ⟨⟨256, 12⟩, [⟨[⟨8, 1, 4⟩, ⟨12, 2, 4⟩]⟩, ⟨[]⟩]⟩
      (fun t => if t = 8 then "IN_BYTES" else "IPV4_DST_ADDR")) = 3 + (2 + 2 + ((2 + 0) + 0))
    ∧ lineCount (DataFlowSet.String Nat.repr ⟨⟨256, 4⟩, []⟩ (fun _ => "")) = 3 :=
  ⟨((dataFlowSet_String_order_and_arity Nat.repr
      ⟨⟨256, 12⟩, [⟨[⟨8, 1, 4⟩, ⟨12, 2, 4⟩]⟩, ⟨[]⟩]⟩
      (fun t => if t = 8 then "IN_BYTES" else "IPV4_DST_ADDR")).2.2.1 (by decide)).2,
   ((dataFlowSet_String_order_and_arity Nat.repr ⟨⟨256, 4⟩, []⟩ (fun _ => "")).2.2.2 rfl).2⟩

/-! ## Template fields -/

theorem fieldLines_length (f : Nat → String) (fields : List TemplateField) (k : Nat) :
    ((fields.enumFrom k).filterMap fun kf => templateFieldLine f kf.1 kf.2).length
      = fields.countP TemplateField.isFieldKind := by
  induction fields generalizing k with
  | nil => rfl
  | cons tf fields ih =>
    have hk : (templateFieldLine f k tf).isSome = tf.isFieldKind := by cases tf <;> rfl
    rw [List.enumFrom_cons, List.filterMap_cons, List.countP_cons, ← hk]
    cases templateFieldLine f k tf with
    | none => simpa using ih (k + 1)
    | some line => simpa using ih (k + 1)

theorem countP_eq_length_iff_all {α : Type} (p : α → Bool) (xs : List α) :
    xs.countP p = xs.length ↔ xs.all p = true := by
  rw [List.countP_eq_length, List.all_eq_true]

/-- C8: in `TemplateFlowSet.String` the count printed in the `Fields (n):`
line of a record is `len(record.Fields)` and the printed `FieldCount` is the
stored `record.FieldCount`, while the field lines of the record are those of
the elements that are a `Field` or an `IPFIXTemplateField`: their number is the
number of such elements, is at most `len(record.Fields)`, and equals it exactly
when every element is of one of the two kinds. -/
theorem templateFlowSet_field_lines_count (fs : TemplateFlowSet) (f : Nat → String) :
    fs.String f =
      "       Id " ++ fmtUint fs.Id ++ "\n"
      ++ ("       Length: " ++ fmtUint fs.Length ++ "\n")
      ++ ("       Records (" ++ fmtUint fs.Records.length ++ " records):\n")
      ++ String.join (fs.Records.enum.map fun jr =>
          "       - " ++ fmtUint jr.1 ++ ". Record:\n"
          ++ ("            TemplateId: " ++ fmtUint jr.2.TemplateId ++ "\n"
          ++ ("            FieldCount: " ++ fmtUint jr.2.FieldCount ++ "\n"
          ++ ("            Fields (" ++ fmtUint jr.2.Fields.length ++ "):\n"
          ++ String.join (jr.2.Fields.enum.filterMap fun kf =>
              templateFieldLine f kf.1 kf.2)))))
    ∧ ∀ record : TemplateRecord,
        (record.Fields.enum.filterMap fun kf => templateFieldLine f kf.1 kf.2).length
          = record.Fields.countP TemplateField.isFieldKind
        ∧ (record.Fields.enum.filterMap fun kf => templateFieldLine f kf.1 kf.2).length
          ≤ record.Fields.length
        ∧ ((record.Fields.enum.filterMap fun kf => templateFieldLine f kf.1 kf.2).length
            = record.Fields.length ↔ record.Fields.all TemplateField.isFieldKind = true) := by
  refine ⟨templateFlowSet_String_eq fs f, fun record => ?_⟩
  have h := fieldLines_length f record.Fields 0
  rw [List.enum, h]
  exact ⟨rfl, List.countP_le_length _, countP_eq_length_iff_all _ _⟩

theorem string_append_left_cancel {a x y : String} (h : a ++ x = a ++ y) : x = y := by
  have hd := congrArg String.data h
  simp only [String.data_append] at hd
  exact String.ext (List.append_cancel_left hd)

theorem string_append_right_cancel {a x y : String} (h : x ++ a = y ++ a) : x = y := by
  have hd := congrArg String.data h
  simp only [String.data_append] at hd
  exact String.ext (List.append_cancel_right hd)

theorem lengthStr_eq_variable_iff (fd : IPFIXTemplateField) :
    fd.lengthStr = "VARIABLE" ↔ fd.Length = 0xFFFF := by
  unfold IPFIXTemplateField.lengthStr
  constructor
  · intro h
    by_contra hne
    simp only [hne, if_false] at h
    exact fmtUint_ne_variable _ h
  · intro h
    simp [h]

theorem lengthStr_of_ne (fd : IPFIXTemplateField) (h : fd.Length ≠ 0xFFFF) :
    fd.lengthStr = fmtUint fd.Length := by
  unfold IPFIXTemplateField.lengthStr
  simp only [h, if_false]

theorem lengthStr_no_space (fd : IPFIXTemplateField) : ' ' ∉ fd.lengthStr.data := by
  by_cases h : fd.Length = 0xFFFF
  · rw [(lengthStr_eq_variable_iff fd).mpr h]
    decide
  · rw [lengthStr_of_ne fd h]
    exact fmtUint_no_space _

theorem lengthStr_injective {a b : IPFIXTemplateField} (h : a.lengthStr = b.lengthStr) :
    a.Length = b.Length := by
  by_cases ha : a.Length = 0xFFFF
  · have hb := (lengthStr_eq_variable_iff b).mp (h ▸ (lengthStr_eq_variable_iff a).mpr ha)
    rw [ha, hb]
  · have hb : b.Length ≠ 0xFFFF := fun hb =>
      ha ((lengthStr_eq_variable_iff a).mp (h.trans ((lengthStr_eq_variable_iff b).mpr hb)))
    rw [lengthStr_of_ne a ha, lengthStr_of_ne b hb] at h
    exact fmtUint_injective h

theorem entid_of_pos (fd : IPFIXTemplateField) (h : fd.EnterpriseID > 0) :
    fd.entid = " (enterprise: " ++ fmtUint fd.EnterpriseID ++ ")" := by
  unfold IPFIXTemplateField.entid
  simp only [h, if_true]

theorem entid_of_zero (fd : IPFIXTemplateField) (h : fd.EnterpriseID = 0) : fd.entid = "" := by
  unfold IPFIXTemplateField.entid
  simp [h]

theorem entid_data (fd : IPFIXTemplateField) :
    fd.entid.data = [] ∨ fd.entid.data.head? = some ' ' := by
  by_cases h : fd.EnterpriseID > 0
  · right
    rw [entid_of_pos fd h]
    simp only [String.data_append]
    rfl
  · left
    rw [entid_of_zero fd (by omega)]

theorem entid_ne_empty_iff (fd : IPFIXTemplateField) : fd.entid ≠ "" ↔ fd.EnterpriseID > 0 := by
  constructor
  · intro h
    by_contra hz
    exact h (entid_of_zero fd (by omega))
  · intro h he
    rw [entid_of_pos fd h] at he
    have hd := congrArg String.data he
    simp only [String.data_append] at hd
    exact absurd hd (by simp)

theorem entid_injective {a b : IPFIXTemplateField} (h : a.entid = b.entid) :
    a.EnterpriseID = b.EnterpriseID := by
  by_cases ha : a.EnterpriseID > 0
  · have hb : b.EnterpriseID > 0 := (entid_ne_empty_iff b).mp (h ▸ (entid_ne_empty_iff a).mpr ha)
    rw [entid_of_pos a ha, entid_of_pos b hb] at h
    exact fmtUint_injective (string_append_left_cancel (string_append_right_cancel h))
  · have hb : ¬ b.EnterpriseID > 0 := fun hb =>
      (entid_ne_empty_iff b).mpr hb (h ▸ entid_of_zero a (by omega))
    omega

theorem split_at_space (l1 l2 e1 e2 : List Char) (h : l1 ++ e1 = l2 ++ e2)
    (h1 : ' ' ∉ l1) (h2 : ' ' ∉ l2)
    (he1 : e1 = [] ∨ e1.head? = some ' ') (he2 : e2 = [] ∨ e2.head? = some ' ') :
    l1 = l2 ∧ e1 = e2 := by
  induction l1 generalizing l2 with
  | nil =>
    cases l2 with
    | nil => exact ⟨rfl, by simpa using h⟩
    | cons d l2 =>
      exfalso
      simp only [List.nil_append, List.cons_append] at h
      rcases he1 with he | he
      · rw [he] at h
        exact List.noConfusion h
      · rw [h] at he
        simp only [List.head?_cons, Option.some.injEq] at he
        exact h2 (he ▸ List.mem_cons_self _ _)
  | cons c l1 ih =>
    cases l2 with
    | nil =>
      exfalso
      simp only [List.nil_append, List.cons_append] at h
      rcases he2 with he | he
      · rw [he] at h
        exact List.noConfusion h
      · rw [← h] at he
        simp only [List.head?_cons, Option.some.injEq] at he
        exact h1 (he ▸ List.mem_cons_self _ _)
    | cons d l2 =>
      simp only [List.cons_append, List.cons.injEq] at h
      obtain ⟨hcd, ht⟩ := h
      obtain ⟨hl, he⟩ := ih l2 ht (fun hm => h1 (List.mem_cons_of_mem _ hm))
        (fun hm => h2 (List.mem_cons_of_mem _ hm))
      exact ⟨by rw [hcd, hl], he⟩

theorem string_append_left_cancel_iff (a x y : String) : a ++ x = a ++ y ↔ x = y :=
  ⟨string_append_left_cancel, fun h => by rw [h]⟩

theorem string_append_right_cancel_iff (a x y : String) : x ++ a = y ++ a ↔ x = y :=
  ⟨string_append_right_cancel, fun h => by rw [h]⟩

theorem ipfix_line_injective (f : Nat → String) (k : Nat) (a b : IPFIXTemplateField)
    (hT : a.Typ = b.Typ)
    (h : "            - " ++ fmtUint k ++ ". " ++ f a.Typ ++ " (" ++ fmtUint a.Typ ++ "): "
          ++ a.lengthStr ++ a.entid ++ "\n"
        = "            - " ++ fmtUint k ++ ". " ++ f b.Typ ++ " (" ++ fmtUint b.Typ ++ "): "
          ++ b.lengthStr ++ b.entid ++ "\n") :
    a.Length = b.Length ∧ a.EnterpriseID = b.EnterpriseID := by
  rw [hT] at h
  have h1 := string_append_right_cancel h
  rw [String.append_assoc, String.append_assoc _ b.lengthStr] at h1
  have h2 := congrArg String.data (string_append_left_cancel h1)
  simp only [String.data_append] at h2
  obtain ⟨hl, he⟩ := split_at_space _ _ _ _ h2 (lengthStr_no_space a) (lengthStr_no_space b)
    (entid_data a) (entid_data b)
  exact ⟨lengthStr_injective (String.ext hl), entid_injective (String.ext he)⟩

theorem plain_ipfix_line_eq_iff (f : Nat → String) (k t l : Nat) :
    "            - " ++ fmtUint k ++ ". " ++ f t ++ " (" ++ fmtUint t ++ "): "
        ++ fmtUint l ++ "\n"
      = "            - " ++ fmtUint k ++ ". " ++ f t ++ " (" ++ fmtUint t ++ "): "
        ++ (IPFIXTemplateField.mk t l 0).lengthStr ++ (IPFIXTemplateField.mk t l 0).entid ++ "\n"
    ↔ l ≠ 0xFFFF := by
  have he : (IPFIXTemplateField.mk t l 0).entid = "" := entid_of_zero _ rfl
  simp only [he, String.append_empty]
  constructor
  · intro h hl
    have h1 := string_append_left_cancel (string_append_right_cancel h)
    rw [(lengthStr_eq_variable_iff ⟨t, l, 0⟩).mpr hl] at h1
    exact fmtUint_ne_variable _ h1
  · intro hl
    rw [lengthStr_of_ne ⟨t, l, 0⟩ hl]

theorem join_map_split {α : Type} (B : Nat × α → String) (xs : List α) (x : α) (ys : List α)
    (k : Nat) :
    String.join (List.map B (List.enumFrom k (xs ++ x :: ys)))
      = String.join (List.map B (List.enumFrom k xs))
        ++ (B (k + xs.length, x)
        ++ String.join (List.map B (List.enumFrom (k + xs.length + 1) ys))) := by
  rw [List.enumFrom_append, List.enumFrom_cons, List.map_append, List.map_cons, join_append,
    join_cons]

theorem join_filterMap_split {α : Type} (g : Nat × α → Option String) (xs : List α) (x : α)
    (ys : List α) (k : Nat) :
    String.join (List.filterMap g (List.enumFrom k (xs ++ x :: ys)))
      = String.join (List.filterMap g (List.enumFrom k xs))
        ++ ((g (k + xs.length, x)).getD ""
        ++ String.join (List.filterMap g (List.enumFrom (k + xs.length + 1) ys))) := by
  rw [List.enumFrom_append, List.enumFrom_cons, List.filterMap_append, List.filterMap_cons,
    join_append]
  cases g (k + xs.length, x) with
  | none => simp only [Option.getD_none, String.empty_append]
  | some line => simp only [Option.getD_some, join_cons]

/-- Two template flow sets that differ in one element of one record render
the same text exactly when the lines appended for the two elements are the
same. -/
theorem templateFlowSet_String_context_eq_iff (hdr : FlowSetHeader)
    (rs1 rs2 : List TemplateRecord) (tid fc : Nat) (fs1 fs2 : List TemplateField)
    (f : Nat → String) (tf1 tf2 : TemplateField) :
    TemplateFlowSet.String ⟨hdr, rs1 ++ ⟨tid, fc, fs1 ++ tf1 :: fs2⟩ :: rs2⟩ f
      = TemplateFlowSet.String ⟨hdr, rs1 ++ ⟨tid, fc, fs1 ++ tf2 :: fs2⟩ :: rs2⟩ f
    ↔ (templateFieldLine f fs1.length tf1).getD "" = (templateFieldLine f fs1.length tf2).getD "" := by
  rw [templateFlowSet_String_eq, templateFlowSet_String_eq]
  simp only [List.enum, join_map_split, join_filterMap_split, List.length_append,
    List.length_cons, Nat.zero_add, String.append_assoc, string_append_left_cancel_iff,
    string_append_right_cancel_iff]

/-- The text of a template flow set of one record with one element. -/
theorem templateFlowSet_String_single (hdr : FlowSetHeader) (tid fc : Nat) (tf : TemplateField)
    (f : Nat → String) :
    TemplateFlowSet.String ⟨hdr, [⟨tid, fc, [tf]⟩]⟩ f
      = "       Id " ++ fmtUint hdr.Id ++ "\n"
        ++ ("       Length: " ++ fmtUint hdr.Length ++ "\n")
        ++ "       Records (1 records):\n"
        ++ "       - 0. Record:\n"
        ++ ("            TemplateId: " ++ fmtUint tid ++ "\n")
        ++ ("            FieldCount: " ++ fmtUint fc ++ "\n")
        ++ "            Fields (1):\n"
        ++ (templateFieldLine f 0 tf).getD "" := by
  have e1 : "       Records (" ++ fmtUint 1 ++ " records):\n" = "       Records (1 records):\n" := by
    decide
  have e2 : "       - " ++ fmtUint 0 ++ ". Record:\n" = "       - 0. Record:\n" := by decide
  have e3 : "            Fields (" ++ fmtUint 1 ++ "):\n" = "            Fields (1):\n" := by
    decide
  rw [templateFlowSet_String_eq]
  simp only [List.enum, List.enumFrom_cons, List.enumFrom_nil, List.map_cons, List.map_nil,
    List.length_cons, List.length_nil, Nat.zero_add, join_cons, join_nil, String.append_empty,
    List.filterMap_cons, List.filterMap_nil, e1, e2, e3]
  cases templateFieldLine f 0 tf with
  | none => simp only [Option.getD_none, join_nil, String.append_empty, String.append_assoc]
  | some line =>
    simp only [Option.getD_some, join_cons, join_nil, String.append_empty, String.append_assoc]

theorem templateFlowSet_String_explicit (f : Nat → String) :
    (∀ fs : TemplateFlowSet,
      fs.String f =
        "       Id " ++ fmtUint fs.Id ++ "\n"
        ++ ("       Length: " ++ fmtUint fs.Length ++ "\n")
        ++ ("       Records (" ++ fmtUint fs.Records.length ++ " records):\n")
        ++ String.join (fs.Records.enum.map fun jr =>
            "       - " ++ fmtUint jr.1 ++ ". Record:\n"
            ++ ("            TemplateId: " ++ fmtUint jr.2.TemplateId ++ "\n"
            ++ ("            FieldCount: " ++ fmtUint jr.2.FieldCount ++ "\n"
            ++ ("            Fields (" ++ fmtUint jr.2.Fields.length ++ "):\n"
            ++ String.join (jr.2.Fields.enum.filterMap fun kf =>
                match kf.2 with
                | TemplateField.plain fd =>
                  some ("            - " ++ fmtUint kf.1 ++ ". " ++ f fd.Typ ++ " ("
                    ++ fmtUint fd.Typ ++ "): " ++ fmtUint fd.Length ++ "\n")
                | TemplateField.ipfix fd =>
                  some ("            - " ++ fmtUint kf.1 ++ ". " ++ f fd.Typ ++ " ("
                    ++ fmtUint fd.Typ ++ "): " ++ fd.lengthStr ++ fd.entid ++ "\n")
                | TemplateField.other => none)))))) := by
  intro fs
  rw [templateFlowSet_String_eq, templateFieldLine_eq]

/-- C6: `TemplateFlowSet.String` prints, for every `IPFIXTemplateField` of
every record, a line whose length text is `VARIABLE` if and only if `Length`
is `0xFFFF`, and the decimal representation of `Length` for every other
`Length`. Stated on the closed form of the output, on the text of a flow set
of one record with one IPFIX field, and for a field at any position of any
flow set: it renders like the field of the same type and enterprise id with
length `0xFFFF` exactly when its own length is `0xFFFF`. -/
theorem ipfix_length_rendered_variable_iff (f : Nat → String) :
    (∀ fs : TemplateFlowSet,
      fs.String f =
        "       Id " ++ fmtUint fs.Id ++ "\n"
        ++ ("       Length: " ++ fmtUint fs.Length ++ "\n")
        ++ ("       Records (" ++ fmtUint fs.Records.length ++ " records):\n")
        ++ String.join (fs.Records.enum.map fun jr =>
            "       - " ++ fmtUint jr.1 ++ ". Record:\n"
            ++ ("            TemplateId: " ++ fmtUint jr.2.TemplateId ++ "\n"
            ++ ("            FieldCount: " ++ fmtUint jr.2.FieldCount ++ "\n"
            ++ ("            Fields (" ++ fmtUint jr.2.Fields.length ++ "):\n"
            ++ String.join (jr.2.Fields.enum.filterMap fun kf =>
                match kf.2 with
                | TemplateField.plain fd =>
                  some ("            - " ++ fmtUint kf.1 ++ ". " ++ f fd.Typ ++ " ("
                    ++ fmtUint fd.Typ ++ "): " ++ fmtUint fd.Length ++ "\n")
                | TemplateField.ipfix fd =>
                  some ("            - " ++ fmtUint kf.1 ++ ". " ++ f fd.Typ ++ " ("
                    ++ fmtUint fd.Typ ++ "): " ++ fd.lengthStr ++ fd.entid ++ "\n")
                | TemplateField.other => none))))))
    ∧ (∀ field : IPFIXTemplateField,
        (field.lengthStr = "VARIABLE" ↔ field.Length = 0xFFFF)
        ∧ (field.Length ≠ 0xFFFF → field.lengthStr = Nat.repr field.Length))
    ∧ (∀ (hdr : FlowSetHeader) (tid fc : Nat) (field : IPFIXTemplateField),
        (TemplateFlowSet.String ⟨hdr, [⟨tid, fc, [TemplateField.ipfix field]⟩]⟩ f
          = "       Id " ++ fmtUint hdr.Id ++ "\n"
            ++ ("       Length: " ++ fmtUint hdr.Length ++ "\n")
            ++ "       Records (1 records):\n"
            ++ "       - 0. Record:\n"
            ++ ("            TemplateId: " ++ fmtUint tid ++ "\n")
            ++ ("            FieldCount: " ++ fmtUint fc ++ "\n")
            ++ "            Fields (1):\n"
            ++ ("            - 0. " ++ f field.Typ ++ " (" ++ fmtUint field.Typ ++ "): "
              ++ "VARIABLE" ++ field.entid ++ "\n")
          ↔ field.Length = 0xFFFF)
        ∧ (field.Length ≠ 0xFFFF →
          TemplateFlowSet.String ⟨hdr, [⟨tid, fc, [TemplateField.ipfix field]⟩]⟩ f
          = "       Id " ++ fmtUint hdr.Id ++ "\n"
            ++ ("       Length: " ++ fmtUint hdr.Length ++ "\n")
            ++ "       Records (1 records):\n"
            ++ "       - 0. Record:\n"
            ++ ("            TemplateId: " ++ fmtUint tid ++ "\n")
            ++ ("            FieldCount: " ++ fmtUint fc ++ "\n")
            ++ "            Fields (1):\n"
            ++ ("            - 0. " ++ f field.Typ ++ " (" ++ fmtUint field.Typ ++ "): "
              ++ Nat.repr field.Length ++ field.entid ++ "\n")))
    ∧ (∀ (hdr : FlowSetHeader) (rs1 rs2 : List TemplateRecord) (tid fc : Nat)
        (fs1 fs2 : List TemplateField) (field : IPFIXTemplateField),
        TemplateFlowSet.String ⟨hdr, rs1 ++ ⟨tid, fc, fs1 ++ TemplateField.ipfix field :: fs2⟩ :: rs2⟩ f
          = TemplateFlowSet.String ⟨hdr, rs1 ++ ⟨tid, fc, fs1 ++ TemplateField.ipfix ⟨field.Typ, 0xFFFF, field.EnterpriseID⟩ :: fs2⟩ :: rs2⟩ f
        ↔ field.Length = 0xFFFF) := by
  have e4 : "            - " ++ fmtUint 0 ++ ". " = "            - 0. " := by decide
  refine ⟨templateFlowSet_String_explicit f,
    fun field => ⟨lengthStr_eq_variable_iff field, lengthStr_of_ne field⟩, ?_, ?_⟩
  · intro hdr tid fc field
    rw [templateFlowSet_String_single]
    simp only [templateFieldLine, Option.getD_some, e4]
    refine ⟨?_, fun h => ?_⟩
    · rw [string_append_left_cancel_iff, string_append_right_cancel_iff,
        string_append_right_cancel_iff, string_append_left_cancel_iff]
      exact lengthStr_eq_variable_iff field
    · rw [lengthStr_of_ne field h]
      rfl
  · intro hdr rs1 rs2 tid fc fs1 fs2 field
    rw [templateFlowSet_String_context_eq_iff]
    simp only [templateFieldLine, Option.getD_some]
    constructor
    · intro h
      exact (ipfix_line_injective f fs1.length field ⟨field.Typ, 0xFFFF, field.EnterpriseID⟩
        rfl h).1
    · intro h
      obtain ⟨t, l, e⟩ := field
      simp only at h
      subst h
      rfl

/-- Witness for C6: a flow set of one record with one IPFIX field of length 4. -/
theorem ipfix_length_rendered_variable_iff_witness :
    (IPFIXTemplateField.mk 8 4 0).lengthStr = Nat.repr 4
    ∧ TemplateFlowSet.String ⟨⟨0, 16⟩, [⟨256, 1, [TemplateField.ipfix ⟨8, 4, 0⟩]⟩]⟩
        (fun _ => "IN_BYTES")
      = "       Id " ++ fmtUint 0 ++ "\n"
        ++ ("       Length: " ++ fmtUint 16 ++ "\n")
        ++ "       Records (1 records):\n"
        ++ "       - 0. Record:\n"
        ++ ("            TemplateId: " ++ fmtUint 256 ++ "\n")
        ++ ("            FieldCount: " ++ fmtUint 1 ++ "\n")
        ++ "            Fields (1):\n"
        ++ ("            - 0. " ++ "IN_BYTES" ++ " (" ++ fmtUint 8 ++ "): "
          ++ Nat.repr 4 ++ (IPFIXTemplateField.mk 8 4 0).entid ++ "\n") :=
  ⟨((ipfix_length_rendered_variable_iff (fun _ => "IN_BYTES")).2.1 ⟨8, 4, 0⟩).2 (by decide),
   ((ipfix_length_rendered_variable_iff (fun _ => "IN_BYTES")).2.2.1 ⟨0, 16⟩ 256 1
      ⟨8, 4, 0⟩).2 (by decide)⟩

/-- C9: the template rendering loses no information about the length and the
enterprise id of an IPFIX field. `TemplateFlowSet.String` prints for an
`IPFIXTemplateField` the line made of the index, the name, the type code, the
length text (`VARIABLE` or a decimal number) and the enterprise suffix
(`" (enterprise: N)"`, present exactly when `EnterpriseID > 0`); two IPFIX
fields of the same type whose lines at the same index are equal have the same
`Length` and the same `EnterpriseID`; and two flow sets that differ only in
one IPFIX field, of the same type in both, and render the same text have the
same `Length` and `EnterpriseID` in that field. -/
theorem ipfix_line_determines_length_and_enterprise (f : Nat → String) :
    (∀ fs : TemplateFlowSet,
      fs.String f =
        "       Id " ++ fmtUint fs.Id ++ "\n"
        ++ ("       Length: " ++ fmtUint fs.Length ++ "\n")
        ++ ("       Records (" ++ fmtUint fs.Records.length ++ " records):\n")
        ++ String.join (fs.Records.enum.map fun jr =>
            "       - " ++ fmtUint jr.1 ++ ". Record:\n"
            ++ ("            TemplateId: " ++ fmtUint jr.2.TemplateId ++ "\n"
            ++ ("            FieldCount: " ++ fmtUint jr.2.FieldCount ++ "\n"
            ++ ("            Fields (" ++ fmtUint jr.2.Fields.length ++ "):\n"
            ++ String.join (jr.2.Fields.enum.filterMap fun kf =>
                match kf.2 with
                | TemplateField.plain fd =>
                  some ("            - " ++ fmtUint kf.1 ++ ". " ++ f fd.Typ ++ " ("
                    ++ fmtUint fd.Typ ++ "): " ++ fmtUint fd.Length ++ "\n")
                | TemplateField.ipfix fd =>
                  some ("            - " ++ fmtUint kf.1 ++ ". " ++ f fd.Typ ++ " ("
                    ++ fmtUint fd.Typ ++ "): " ++ fd.lengthStr ++ fd.entid ++ "\n")
                | TemplateField.other => none))))))
    ∧ (∀ field : IPFIXTemplateField,
        field.lengthStr
          = (if field.Length = 0xFFFF then "VARIABLE" else Nat.repr field.Length)
        ∧ field.entid
          = (if field.EnterpriseID > 0 then
              " (enterprise: " ++ Nat.repr field.EnterpriseID ++ ")" else "")
        ∧ (field.entid ≠ "" ↔ field.EnterpriseID > 0))
    ∧ (∀ (k : Nat) (a b : IPFIXTemplateField), a.Typ = b.Typ →
        "            - " ++ fmtUint k ++ ". " ++ f a.Typ ++ " (" ++ fmtUint a.Typ ++ "): "
            ++ a.lengthStr ++ a.entid ++ "\n"
          = "            - " ++ fmtUint k ++ ". " ++ f b.Typ ++ " (" ++ fmtUint b.Typ ++ "): "
            ++ b.lengthStr ++ b.entid ++ "\n" →
        a.Length = b.Length ∧ a.EnterpriseID = b.EnterpriseID)
    ∧ (∀ (hdr : FlowSetHeader) (rs1 rs2 : List TemplateRecord) (tid fc : Nat)
        (fs1 fs2 : List TemplateField) (a b : IPFIXTemplateField), a.Typ = b.Typ →
        TemplateFlowSet.String ⟨hdr, rs1 ++ ⟨tid, fc, fs1 ++ TemplateField.ipfix a :: fs2⟩ :: rs2⟩ f
          = TemplateFlowSet.String ⟨hdr, rs1 ++ ⟨tid, fc, fs1 ++ TemplateField.ipfix b :: fs2⟩ :: rs2⟩ f →
        a.Length = b.Length ∧ a.EnterpriseID = b.EnterpriseID) := by
  refine ⟨templateFlowSet_String_explicit f,
    fun field => ⟨rfl, rfl, entid_ne_empty_iff field⟩,
    fun k a b hT h => ipfix_line_injective f k a b hT h, ?_⟩
  intro hdr rs1 rs2 tid fc fs1 fs2 a b hT h
  rw [templateFlowSet_String_context_eq_iff] at h
  simp only [templateFieldLine, Option.getD_some] at h
  exact ipfix_line_injective f fs1.length a b hT h

/-- Witness for C9: a variable-length field of enterprise 9, as a line at
index 3 and as the second field of the second record of a flow set. -/
theorem ipfix_line_determines_length_and_enterprise_witness :
    ((IPFIXTemplateField.mk 8 65535 9).Length = (IPFIXTemplateField.mk 8 65535 9).Length
      ∧ (IPFIXTemplateField.mk 8 65535 9).EnterpriseID
        = (IPFIXTemplateField.mk 8 65535 9).EnterpriseID)
    ∧ ((IPFIXTemplateField.mk 12 4 0).Length = (IPFIXTemplateField.mk 12 4 0).Length
      ∧ (IPFIXTemplateField.mk 12 4 0).EnterpriseID
        = (IPFIXTemplateField.mk 12 4 0).EnterpriseID) :=
  ⟨(ipfix_line_determines_length_and_enterprise (fun _ => "name")).2.2.1 3
      ⟨8, 65535, 9⟩ ⟨8, 65535, 9⟩ rfl rfl,
   (ipfix_line_determines_length_and_enterprise (fun _ => "name")).2.2.2 ⟨0, 40⟩
      [⟨256, 1, [TemplateField.plain ⟨8, 4⟩]⟩] [] 257 2 [TemplateField.plain ⟨1, 4⟩] []
      ⟨12, 4, 0⟩ ⟨12, 4, 0⟩ rfl rfl⟩

/-- C10: plain and IPFIX field descriptors render consistently. In the output
of `TemplateFlowSet.String` the line of `Field` with type `t` and length `l`
equals the line of `IPFIXTemplateField` with type `t`, length `l` and
enterprise id 0 at the same index if and only if `l` is not `0xFFFF`; so two
flow sets that differ only in holding the one or the other at some position
render the same text if and only if `l` is not `0xFFFF`; with `l = 0xFFFF` the
plain field shows `65535` and the IPFIX field shows `VARIABLE`. -/
theorem plain_and_ipfix_lines_agree_iff (f : Nat → String) :
    (∀ fs : TemplateFlowSet,
      fs.String f =
        "       Id " ++ fmtUint fs.Id ++ "\n"
        ++ ("       Length: " ++ fmtUint fs.Length ++ "\n")
        ++ ("       Records (" ++ fmtUint fs.Records.length ++ " records):\n")
        ++ String.join (fs.Records.enum.map fun jr =>
            "       - " ++ fmtUint jr.1 ++ ". Record:\n"
            ++ ("            TemplateId: " ++ fmtUint jr.2.TemplateId ++ "\n"
            ++ ("            FieldCount: " ++ fmtUint jr.2.FieldCount ++ "\n"
            ++ ("            Fields (" ++ fmtUint jr.2.Fields.length ++ "):\n"
            ++ String.join (jr.2.Fields.enum.filterMap fun kf =>
                match kf.2 with
                | TemplateField.plain fd =>
                  some ("            - " ++ fmtUint kf.1 ++ ". " ++ f fd.Typ ++ " ("
                    ++ fmtUint fd.Typ ++ "): " ++ fmtUint fd.Length ++ "\n")
                | TemplateField.ipfix fd =>
                  some ("            - " ++ fmtUint kf.1 ++ ". " ++ f fd.Typ ++ " ("
                    ++ fmtUint fd.Typ ++ "): " ++ fd.lengthStr ++ fd.entid ++ "\n")
                | TemplateField.other => none))))))
    ∧ (∀ k t l : Nat,
        "            - " ++ fmtUint k ++ ". " ++ f t ++ " (" ++ fmtUint t ++ "): "
            ++ fmtUint l ++ "\n"
          = "            - " ++ fmtUint k ++ ". " ++ f t ++ " (" ++ fmtUint t ++ "): "
            ++ (IPFIXTemplateField.mk t l 0).lengthStr ++ (IPFIXTemplateField.mk t l 0).entid
            ++ "\n"
        ↔ l ≠ 0xFFFF)
    ∧ (∀ (hdr : FlowSetHeader) (rs1 rs2 : List TemplateRecord) (tid fc : Nat)
        (fs1 fs2 : List TemplateField) (t l : Nat),
        TemplateFlowSet.String ⟨hdr, rs1 ++ ⟨tid, fc, fs1 ++ TemplateField.plain ⟨t, l⟩ :: fs2⟩ :: rs2⟩ f
          = TemplateFlowSet.String ⟨hdr, rs1 ++ ⟨tid, fc, fs1 ++ TemplateField.ipfix ⟨t, l, 0⟩ :: fs2⟩ :: rs2⟩ f
        ↔ l ≠ 0xFFFF)
    ∧ (∀ (hdr : FlowSetHeader) (tid fc t : Nat),
        TemplateFlowSet.String ⟨hdr, [⟨tid, fc, [TemplateField.plain ⟨t, 0xFFFF⟩]⟩]⟩ f
          = "       Id " ++ fmtUint hdr.Id ++ "\n"
            ++ ("       Length: " ++ fmtUint hdr.Length ++ "\n")
            ++ "       Records (1 records):\n"
            ++ "       - 0. Record:\n"
            ++ ("            TemplateId: " ++ fmtUint tid ++ "\n")
            ++ ("            FieldCount: " ++ fmtUint fc ++ "\n")
            ++ "            Fields (1):\n"
            ++ ("            - 0. " ++ f t ++ " (" ++ fmtUint t ++ "): " ++ "65535" ++ "\n")
        ∧ TemplateFlowSet.String ⟨hdr, [⟨tid, fc, [TemplateField.ipfix ⟨t, 0xFFFF, 0⟩]⟩]⟩ f
          = "       Id " ++ fmtUint hdr.Id ++ "\n"
            ++ ("       Length: " ++ fmtUint hdr.Length ++ "\n")
            ++ "       Records (1 records):\n"
            ++ "       - 0. Record:\n"
            ++ ("            TemplateId: " ++ fmtUint tid ++ "\n")
            ++ ("            FieldCount: " ++ fmtUint fc ++ "\n")
            ++ "            Fields (1):\n"
            ++ ("            - 0. " ++ f t ++ " (" ++ fmtUint t ++ "): " ++ "VARIABLE"
              ++ "\n")) := by
  have e4 : "            - " ++ fmtUint 0 ++ ". " = "            - 0. " := by decide
  have h5 : fmtUint 0xFFFF = "65535" := by decide
  refine ⟨templateFlowSet_String_explicit f, plain_ipfix_line_eq_iff f, ?_, ?_⟩
  · intro hdr rs1 rs2 tid fc fs1 fs2 t l
    rw [templateFlowSet_String_context_eq_iff]
    simp only [templateFieldLine, Option.getD_some]
    exact plain_ipfix_line_eq_iff f fs1.length t l
  · intro hdr tid fc t
    have hv : (IPFIXTemplateField.mk t 0xFFFF 0).lengthStr = "VARIABLE" :=
      (lengthStr_eq_variable_iff _).mpr rfl
    have he : (IPFIXTemplateField.mk t 0xFFFF 0).entid = "" := entid_of_zero _ rfl
    constructor
    · rw [templateFlowSet_String_single]
      simp only [templateFieldLine, Option.getD_some, e4, h5]
    · rw [templateFlowSet_String_single]
      simp only [templateFieldLine, Option.getD_some, e4, hv, he, String.append_empty]

/-! ## Template cache -/

theorem find_filter_ne {K T : Type} [DecidableEq K] (cache : TemplateCache K T)
    (key key2 : K × Nat) (h : key2 ≠ key) :
    List.find? (fun e => decide (e.1 = key2)) (List.filter (fun e => decide (e.1 ≠ key)) cache)
      = List.find? (fun e => decide (e.1 = key2)) cache := by
  induction cache with
  | nil => rfl
  | cons e cache ih =>
    by_cases he : e.1 = key
    · have hp : decide (e.1 ≠ key) = false := by simp [he]
      have hq : decide (e.1 = key2) = false := by
        simp only [decide_eq_false_iff_not]
        exact fun h3 => h (h3.symm.trans he)
      simp only [List.filter_cons, List.find?_cons, hp, hq, Bool.false_eq_true, if_false]
      exact ih
    · have hp : decide (e.1 ≠ key) = true := by simp [he]
      by_cases h2 : e.1 = key2
      · have hq : decide (e.1 = key2) = true := by simp [h2]
        simp only [List.filter_cons, List.find?_cons, hp, hq, if_true]
      · have hq : decide (e.1 = key2) = false := by simp [h2]
        simp only [List.filter_cons, List.find?_cons, hp, hq, if_true]
        exact ih

theorem get_put_same {K T : Type} [DecidableEq K] (cache : TemplateCache K T) (k : K) (i : Nat)
    (t : T) : (cache.put k i t).get k i = some t := by
  simp [TemplateCache.put, TemplateCache.get, List.find?_cons]

theorem get_put_other {K T : Type} [DecidableEq K] (cache : TemplateCache K T) (k : K) (i : Nat)
    (t : T) (k2 : K) (i2 : Nat) (h : (k2, i2) ≠ (k, i)) :
    (cache.put k i t).get k2 i2 = cache.get k2 i2 := by
  have hne : ¬ (k, i) = (k2, i2) := fun h3 => h h3.symm
  simp only [TemplateCache.put, TemplateCache.get, List.find?_cons, hne, decide_False]
  rw [find_filter_ne cache (k, i) (k2, i2) h]

/-- C4: after `put(k, i, t)` a `get(k, i)` returns `t`, also when a template
was cached under `(k, i)` before; for every `(k2, i2)` different from `(k, i)`
`get(k2, i2)` returns what it returned before the `put`; and two exporters
that both define template id 256 do not overwrite each other. -/
theorem templateCache_put_get {K T : Type} [DecidableEq K] (cache : TemplateCache K T)
    (k : K) (i : Nat) (t : T) :
    (cache.put k i t).get k i = some t
    ∧ (∀ t0 : T, ((cache.put k i t0).put k i t).get k i = some t)
    ∧ (∀ (k2 : K) (i2 : Nat), (k2, i2) ≠ (k, i) →
        (cache.put k i t).get k2 i2 = cache.get k2 i2)
    ∧ (∀ (k2 : K) (t2 : T), k2 ≠ k →
        ((cache.put k 256 t).put k2 256 t2).get k 256 = some t
        ∧ ((cache.put k 256 t).put k2 256 t2).get k2 256 = some t2) := by
  refine ⟨get_put_same cache k i t, fun t0 => get_put_same _ k i t, get_put_other cache k i t, ?_⟩
  intro k2 t2 hk
  refine ⟨?_, get_put_same _ k2 256 t2⟩
  rw [get_put_other _ k2 256 t2 k 256 (fun h => hk (Prod.mk.inj h).1.symm)]
  exact get_put_same cache k 256 t

/-- Witness for C4: exporters `10.0.0.1` and `10.0.0.2` both define template
256, and exporter `10.0.0.1` also has template 257. -/
theorem templateCache_put_get_witness :
    ((TemplateCache.put (TemplateCache.put TemplateCache.empty "10.0.0.1" 257
          (TemplateRecord.mk 257 1 [TemplateField.plain ⟨12, 4⟩]))
        "10.0.0.1" 256 (TemplateRecord.mk 256 1 [TemplateField.plain ⟨8, 4⟩])).get "10.0.0.1" 257
      = (TemplateCache.put TemplateCache.empty "10.0.0.1" 257
          (TemplateRecord.mk 257 1 [TemplateField.plain ⟨12, 4⟩])).get "10.0.0.1" 257)
    ∧ (((TemplateCache.put (TemplateCache.empty : TemplateCache String TemplateRecord)
          "10.0.0.1" 256 (TemplateRecord.mk 256 1 [TemplateField.plain ⟨8, 4⟩])).put
          "10.0.0.2" 256 (TemplateRecord.mk 256 1 [TemplateField.plain ⟨1, 8⟩])).get
          "10.0.0.1" 256
        = some (TemplateRecord.mk 256 1 [TemplateField.plain ⟨8, 4⟩])
      ∧ ((TemplateCache.put (TemplateCache.empty : TemplateCache String TemplateRecord)
          "10.0.0.1" 256 (TemplateRecord.mk 256 1 [TemplateField.plain ⟨8, 4⟩])).put
          "10.0.0.2" 256 (TemplateRecord.mk 256 1 [TemplateField.plain ⟨1, 8⟩])).get
          "10.0.0.2" 256
        = some (TemplateRecord.mk 256 1 [TemplateField.plain ⟨1, 8⟩])) :=
  ⟨(templateCache_put_get (TemplateCache.put TemplateCache.empty "10.0.0.1" 257
      (TemplateRecord.mk 257 1 [TemplateField.plain ⟨12, 4⟩])) "10.0.0.1" 256
      (TemplateRecord.mk 256 1 [TemplateField.plain ⟨8, 4⟩])).2.2.1 "10.0.0.1" 257 (by decide),
   (templateCache_put_get (TemplateCache.empty : TemplateCache String TemplateRecord)
      "10.0.0.1" 256 (TemplateRecord.mk 256 1 [TemplateField.plain ⟨8, 4⟩])).2.2.2
      "10.0.0.2" (TemplateRecord.mk 256 1 [TemplateField.plain ⟨1, 8⟩]) (by decide)⟩

/-! ## Variable-length fields -/

theorem decodeFieldValue_one_byte (b : Fin 256) (rest : List (Fin 256)) (hb : b.val < 255) :
    decodeFieldValue 0xFFFF (b :: rest)
      = if b.val ≤ rest.length then Except.ok (rest.take b.val, rest.drop b.val)
        else Except.error DecodeError.truncatedRecord := by
  simp [decodeFieldValue, readVariableLength, hb]

theorem decodeFieldValue_three_bytes (hi lo : Fin 256) (rest : List (Fin 256)) :
    decodeFieldValue 0xFFFF (255 :: hi :: lo :: rest)
      = if hi.val * 256 + lo.val ≤ rest.length then
          Except.ok (rest.take (hi.val * 256 + lo.val), rest.drop (hi.val * 256 + lo.val))
        else Except.error DecodeError.truncatedRecord := by
  have h255 : ¬ ((255 : Fin 256).val < 255) := by decide
  simp [decodeFieldValue, readVariableLength, h255]

/-- C5: for a field declared with length `0xFFFF` the decoder reads a length
prefix, one byte `b < 255`, or the byte 255 followed by a 2-byte big-endian
length, and then consumes exactly that many following bytes as the value,
leaving the rest; a 1-byte prefix of 254 consumes exactly 254 bytes and a
prefix 255 followed by the 2-byte value 300 consumes exactly 300 bytes; a
prefix claiming more bytes than remain is a decode error. -/
theorem variable_length_field_decoding :
    (∀ (b : Fin 256) (rest : List (Fin 256)), b.val < 255 → b.val ≤ rest.length →
      decodeFieldValue 0xFFFF (b :: rest) = Except.ok (rest.take b.val, rest.drop b.val)
      ∧ (rest.take b.val).length = b.val)
    ∧ (∀ (hi lo : Fin 256) (rest : List (Fin 256)), hi.val * 256 + lo.val ≤ rest.length →
      decodeFieldValue 0xFFFF (255 :: hi :: lo :: rest)
        = Except.ok (rest.take (hi.val * 256 + lo.val), rest.drop (hi.val * 256 + lo.val))
      ∧ (rest.take (hi.val * 256 + lo.val)).length = hi.val * 256 + lo.val)
    ∧ (∀ rest : List (Fin 256), 254 ≤ rest.length →
      decodeFieldValue 0xFFFF (254 :: rest) = Except.ok (rest.take 254, rest.drop 254)
      ∧ (rest.take 254).length = 254)
    ∧ (∀ rest : List (Fin 256), 300 ≤ rest.length →
      decodeFieldValue 0xFFFF (255 :: 1 :: 44 :: rest) = Except.ok (rest.take 300, rest.drop 300)
      ∧ (rest.take 300).length = 300)
    ∧ (∀ (b : Fin 256) (rest : List (Fin 256)), b.val < 255 → rest.length < b.val →
      decodeFieldValue 0xFFFF (b :: rest) = Except.error DecodeError.truncatedRecord)
    ∧ (∀ (hi lo : Fin 256) (rest : List (Fin 256)), rest.length < hi.val * 256 + lo.val →
      decodeFieldValue 0xFFFF (255 :: hi :: lo :: rest)
        = Except.error DecodeError.truncatedRecord) := by
  refine ⟨?_, ?_, ?_, ?_, ?_, ?_⟩
  · intro b rest hb hle
    rw [decodeFieldValue_one_byte b rest hb, if_pos hle]
    exact ⟨rfl, List.length_take_of_le hle⟩
  · intro hi lo rest hle
    rw [decodeFieldValue_three_bytes, if_pos hle]
    exact ⟨rfl, List.length_take_of_le hle⟩
  · intro rest hle
    have h := decodeFieldValue_one_byte 254 rest (by decide)
    rw [if_pos (by simpa using hle)] at h
    exact ⟨h, List.length_take_of_le hle⟩
  · intro rest hle
    have h := decodeFieldValue_three_bytes 1 44 rest
    rw [if_pos (by simpa using hle)] at h
    exact ⟨h, List.length_take_of_le hle⟩
  · intro b rest hb hlt
    rw [decodeFieldValue_one_byte b rest hb, if_neg (by omega)]
  · intro hi lo rest hlt
    rw [decodeFieldValue_three_bytes, if_neg (by omega)]

/-- Witness for C5: prefixes 2, 254 and 255 followed by 300, each with enough
bytes behind them, and prefixes 3 and 255 followed by 300 with too few. -/
theorem variable_length_field_decoding_witness :
    (decodeFieldValue 0xFFFF (2 :: [10, 20, 30])
        = Except.ok (List.take (2 : Fin 256).val [10, 20, 30],
            List.drop (2 : Fin 256).val [10, 20, 30])
      ∧ (List.take (2 : Fin 256).val ([10, 20, 30] : List (Fin 256))).length
          = (2 : Fin 256).val)
    ∧ (decodeFieldValue 0xFFFF (255 :: 0 :: 3 :: [10, 20, 30, 40])
        = Except.ok (List.take ((0 : Fin 256).val * 256 + (3 : Fin 256).val) [10, 20, 30, 40],
            List.drop ((0 : Fin 256).val * 256 + (3 : Fin 256).val) [10, 20, 30, 40])
      ∧ (List.take ((0 : Fin 256).val * 256 + (3 : Fin 256).val)
            ([10, 20, 30, 40] : List (Fin 256))).length
          = (0 : Fin 256).val * 256 + (3 : Fin 256).val)
    ∧ (decodeFieldValue 0xFFFF (254 :: (List.replicate 254 7 ++ [1, 2]))
        = Except.ok (List.take 254 (List.replicate 254 7 ++ [1, 2]),
            List.drop 254 (List.replicate 254 7 ++ [1, 2]))
      ∧ (List.take 254 (List.replicate 254 (7 : Fin 256) ++ [1, 2])).length = 254)
    ∧ (decodeFieldValue 0xFFFF (255 :: 1 :: 44 :: (List.replicate 300 7 ++ [1, 2]))
        = Except.ok (List.take 300 (List.replicate 300 7 ++ [1, 2]),
            List.drop 300 (List.replicate 300 7 ++ [1, 2]))
      ∧ (List.take 300 (List.replicate 300 (7 : Fin 256) ++ [1, 2])).length = 300)
    ∧ decodeFieldValue 0xFFFF (3 :: [10, 20]) = Except.error DecodeError.truncatedRecord
    ∧ decodeFieldValue 0xFFFF (255 :: 1 :: 44 :: [10, 20])
        = Except.error DecodeError.truncatedRecord :=
  ⟨variable_length_field_decoding.1 2 [10, 20, 30] (by decide) (by decide),
   variable_length_field_decoding.2.1 0 3 [10, 20, 30, 40] (by decide),
   variable_length_field_decoding.2.2.1 (List.replicate 254 7 ++ [1, 2])
     (by rw [List.length_append, List.length_replicate]; exact Nat.le_add_right 254 _),
   variable_length_field_decoding.2.2.2.1 (List.replicate 300 7 ++ [1, 2])
     (by rw [List.length_append, List.length_replicate]; exact Nat.le_add_right 300 _),
   variable_length_field_decoding.2.2.2.2.1 3 [10, 20] (by decide) (by decide),
   variable_length_field_decoding.2.2.2.2.2 1 44 [10, 20] (by decide)⟩

/-! ## The embedding on concrete inputs -/

set_option maxRecDepth 100000

/-- A template flow set with a plain field, an element of another kind, a
variable-length enterprise field and an IPFIX field without enterprise. -/
theorem templateFlowSet_String_example :
    TemplateFlowSet.String
        ⟨⟨0, 20⟩, [⟨256, 2, [.plain ⟨8, 4⟩, .other, .ipfix ⟨12, 65535, 7⟩, .ipfix ⟨12, 4, 0⟩]⟩]⟩
        (fun t => if t = 8 then "IPV4_SRC_ADDR" else "")
      = "       Id 0\n       Length: 20\n       Records (1 records):\n" ++
        "       - 0. Record:\n            TemplateId: 256\n            FieldCount: 2\n" ++
        "            Fields (4):\n            - 0. IPV4_SRC_ADDR (8): 4\n" ++
        "            - 2.  (12): VARIABLE (enterprise: 7)\n            - 3.  (12): 4\n" := by
  decide

/-- A data flow set of one record with two values, rendered with a lookup
that knows no code. -/
theorem dataFlowSet_String_example :
    DataFlowSet.String Nat.repr ⟨⟨256, 12⟩, [⟨[⟨8, 16909060, 4⟩, ⟨12, 84281096, 4⟩]⟩]⟩
        (fun _ => "")
      = "       Id 256\n       Length: 12\n       Records (1 records):\n" ++
        "       - Record 0:\n            Values (2):\n" ++
        "            - 0.  (8): 16909060\n            - 1.  (12): 84281096\n" := by
  decide

/-- An options data flow set of one record with one scope and one option. -/
theorem optionsDataFlowSet_String_example :
    OptionsDataFlowSet.String Nat.repr ⟨⟨257, 12⟩, [⟨[⟨1, 5, 4⟩], [⟨34, 100, 4⟩]⟩]⟩
        (fun _ => "SAMPLING_INTERVAL") (fun _ => "System")
      = "       Id 257\n       Length: 12\n       Records (1 records):\n" ++
        "       - Record 0:\n            Scopes (1):\n            - 0. System (1): 5\n" ++
        "            Options (1):\n            - 0. SAMPLING_INTERVAL (34): 100\n" := by
  decide

end netflow
